import Mathlib

set_option maxRecDepth 8000

/-
Verification of the garmin-gps-system supervisory subsystem.

Each Python component used by the claims is embedded as an executable Lean
definition over plain lists, naturals and rationals:

* Python strings are `List Char` (Lean `Char` is a Unicode scalar value,
  matching Python code points);
* `time.time()` / `datetime` differences are modelled over `ℚ`;
* external effects (process launches, `systemctl` calls, device polls,
  protocol handshakes) are inputs to the step functions, and emitted
  recovery actions are collected in explicit action lists;
* each long-running loop body is embedded as a sequential step function on
  its loop-local and object state, iterated over an input trace.
-/

/-! ## NMEA checksum and hex rendering (garminReader.py) -/

/-- `GarminReader.calculate_nmea_checksum` (garminReader.py 534-539):
XOR of the code points of all characters of the sentence body. -/
def calculate_nmea_checksum (sentence : List Char) : Nat :=
  sentence.foldl (fun acc c => acc ^^^ c.toNat) 0

/-- Uppercase hexadecimal digit character for a value below 16. -/
def hexDigitChar (n : Nat) : Char :=
  if n < 10 then Char.ofNat (48 + n) else Char.ofNat (55 + n)

/-- Hex digits of `n`, most significant first; fuel-based recursion so the
definition reduces inside the kernel.  With fuel at least `n` the fuel never
runs out. -/
def hexRepAux : Nat → Nat → List Char
  | 0, n => [hexDigitChar (n % 16)]
  | fuel + 1, n =>
    if n < 16 then [hexDigitChar n]
    else hexRepAux fuel (n / 16) ++ [hexDigitChar (n % 16)]

/-- Uppercase hexadecimal rendering of `n` (no padding). -/
def hexRep (n : Nat) : List Char := hexRepAux n n

/-- The Python format spec `{n:02X}`: uppercase hex, zero-padded to a minimum
width of two, wider if the value needs more digits. -/
def formatHex02 (n : Nat) : List Char :=
  if n < 16 then '0' :: hexRep n else hexRep n

/-- Is `c` an uppercase hexadecimal digit (0-9 or A-F)? -/
def isUpperHexDigit (c : Char) : Bool :=
  (48 ≤ c.toNat && c.toNat ≤ 57) || (65 ≤ c.toNat && c.toNat ≤ 70)

/-- Numeric value of a hexadecimal digit character. -/
def hexCharVal (c : Char) : Nat :=
  if c.toNat ≤ 57 then c.toNat - 48 else c.toNat - 55

/-- Value denoted by a big-endian list of hexadecimal digit characters. -/
def hexListVal (ds : List Char) : Nat :=
  ds.foldl (fun acc c => 16 * acc + hexCharVal c) 0

/-! ## gpsd relay line processing (garminReader.py, gpsd_loop 666-745) -/

/-- The six characters Python `str.strip()` removes for ASCII input. -/
def isPySpace (c : Char) : Bool :=
  c = ' ' || c = Char.ofNat 9 || c = Char.ofNat 10 ||
  c = Char.ofNat 13 || c = Char.ofNat 11 || c = Char.ofNat 12

/-- Python `str.strip()` restricted to the ASCII whitespace class (the data
handled here never contains other Unicode whitespace). -/
def pyStrip (s : List Char) : List Char :=
  ((s.dropWhile isPySpace).reverse.dropWhile isPySpace).reverse

/-- One iteration of the inner line handling of `GarminReader.gpsd_loop`
(garminReader.py 709-718): strip the raw segment; a line starting with a
sentence marker is broadcast, with `*XX` checksum completion appended when
no `*` is present; other lines are dropped.  Returns the payload handed to
`broadcast_message`, when any. -/
def gpsdProcessLine (raw : List Char) : Option (List Char) :=
  let line := pyStrip raw
  match line with
  | '$' :: body =>
    if '*' ∈ line then some line
    else some (line ++ '*' :: formatHex02 (calculate_nmea_checksum body))
  | _ => none

/-- Splitting of the accumulated buffer at newline characters, as done by the
`while "\n" in buffer: line, buffer = buffer.split("\n", 1)` loop
(garminReader.py 707-708): the complete lines in order, and the trailing
remainder that stays in the buffer. -/
def splitOnNewlines : List Char → List (List Char) × List Char
  | [] => ([], [])
  | c :: cs =>
    if c = Char.ofNat 10 then
      let p := splitOnNewlines cs
      ([] :: p.1, p.2)
    else
      match splitOnNewlines cs with
      | ([], rest) => ([], c :: rest)
      | (l :: ls, rest) => ((c :: l) :: ls, rest)

/-- Handling of one `recv` chunk inside the streaming loop
(garminReader.py 704-718): append the decoded chunk to the buffer, split off
the complete lines, broadcast each processed line.  Returns the new buffer
and the payloads broadcast for this chunk. -/
def processChunk (buffer chunk : List Char) : List Char × List (List Char) :=
  let p := splitOnNewlines (buffer ++ chunk)
  (p.2, p.1.filterMap gpsdProcessLine)

/-- One connection epoch of `gpsd_loop`: the chunks received on one gpsd
connection, processed in order against the incoming buffer.  Returns the
buffer as it stands when the connection ends and the broadcasts made. -/
def runEpoch : List Char → List (List Char) → List Char × List (List Char)
  | buf, [] => (buf, [])
  | buf, ch :: rest =>
    let p := processChunk buf ch
    let q := runEpoch p.1 rest
    (q.1, p.2 ++ q.2)

/-- Several successive connection epochs of `gpsd_loop`.  Faithful to
garminReader.py 666-668: `buffer = ""` is initialized once, before the
reconnect loop, so the buffer left by one epoch is the starting buffer of
the next. -/
def runEpochs : List Char → List (List (List Char)) → List Char × List (List Char)
  | buf, [] => (buf, [])
  | buf, e :: es =>
    let p := runEpoch buf e
    let q := runEpochs p.1 es
    (q.1, p.2 ++ q.2)

/-! ## SystemHealth (garminReader.py 448-482) -/

/-- `SystemHealth.is_healthy` (garminReader.py 466-482), as a function of the
current time and the two stored timestamps (heading category sent by the
compass broadcast, heartbeat category).  Times are modelled over `ℚ`. -/
def is_healthy (now last_compass_sent last_heartbeat_sent : ℚ) : Bool :=
  if now - last_compass_sent > 30 then false
  else if now - last_heartbeat_sent > 60 then false
  else true

/-! ## Enhanced device monitor loop (garminReader.py 597-645) -/

/-- Loop-local and object state read and written by one iteration of
`GarminReader.enhanced_device_monitor_loop`: the `consecutive_failures`
local, `gpsd_manager.device_present` and `self.gpsd_connected`. -/
structure MonState where
  consecutive_failures : Nat
  device_present : Bool
  gpsd_connected : Bool
deriving DecidableEq

/-- State at `GarminReader.__init__` / `GPSDManager.__init__`:
counter 0, `device_present = False`, `gpsd_connected = False`. -/
def initMonState : MonState :=
  { consecutive_failures := 0, device_present := false, gpsd_connected := false }

/-- Externally visible recovery actions a monitor iteration can issue. -/
inductive MonAction where
  | enhancedRestart
  | serviceRestart
deriving DecidableEq

/-- One iteration of `enhanced_device_monitor_loop` (garminReader.py
602-641).  `polled` is the `os.path.exists` result of this cycle and
`restartOk` the outcome `enhanced_restart_gpsd` would report if invoked.
Faithful to the source order: `check_device()` stores the polled value into
`gpsd_manager.device_present` BEFORE the branch conditions re-read that
field, exactly as in the Python code. -/
def monitorStep (restartOk polled : Bool) (s : MonState) : MonState × List MonAction :=
  let s1 : MonState := { s with device_present := polled }
  if !polled && s1.device_present then
    let s2 : MonState :=
      { s1 with gpsd_connected := false,
                consecutive_failures := s1.consecutive_failures + 1 }
    if s2.consecutive_failures ≥ 3 then
      if restartOk then
        ({ s2 with consecutive_failures := 0 }, [MonAction.enhancedRestart])
      else
        (s2, [MonAction.enhancedRestart, MonAction.serviceRestart])
    else (s2, [])
  else if polled && !s1.device_present then
    if restartOk then
      ({ s1 with consecutive_failures := 0 }, [MonAction.enhancedRestart])
    else
      ({ s1 with consecutive_failures := s1.consecutive_failures + 1 },
       [MonAction.enhancedRestart])
  else if polled && s1.device_present then
    if s1.consecutive_failures > 0 then
      ({ s1 with consecutive_failures := 0 }, [])
    else (s1, [])
  else (s1, [])

/-- The monitor loop run over a trace of poll cycles; each input is the
pair (restart outcome oracle, polled device presence). -/
def runMonitor : List (Bool × Bool) → MonState → MonState × List MonAction
  | [], s => (s, [])
  | i :: rest, s =>
    let r := monitorStep i.1 i.2 s
    let q := runMonitor rest r.1
    (q.1, r.2 ++ q.2)

/-! ## GPSD daemon restart (garminReader.py 208-444) -/

/-- The daemon processes the restart operation manipulates: how many gpsd
instances are running, and whether the (sole) current instance answered the
`?VERSION;` responsiveness handshake. -/
structure DaemonWorld where
  instances : Nat
  responsive : Bool
deriving DecidableEq

/-- Outcome of one attempt to launch the gpsd binary: the launch command
fails (process exits at once / non-zero return), the process comes up but
the handshake of `verify_gpsd_running` fails, or it comes up and answers. -/
inductive StartOutcome where
  | launchFails
  | unresponsive
  | healthy
deriving DecidableEq

/-- The stop/cleanup phase of `enhanced_restart_gpsd` (garminReader.py
228-305): stop and disable the gpsd services, `pkill -9` every remaining
gpsd process, remove stale sockets.  SIGKILL removes every instance. -/
def killAllGpsd (_ : DaemonWorld) : DaemonWorld :=
  { instances := 0, responsive := false }

/-- `GPSDManager.enhanced_restart_gpsd` (garminReader.py 208-342): kill all
existing instances, then, when the device is present, launch one new gpsd
and verify it.  Faithful to the source: on a launch that succeeds but fails
the responsiveness check (lines 320-325) the method returns failure WITHOUT
killing the instance it just started. -/
def enhanced_restart_gpsd (devicePresent : Bool) (o : StartOutcome)
    (w : DaemonWorld) : DaemonWorld × Bool :=
  let w1 := killAllGpsd w
  if devicePresent then
    match o with
    | StartOutcome.launchFails => (w1, false)
    | StartOutcome.unresponsive => ({ instances := 1, responsive := false }, false)
    | StartOutcome.healthy => ({ instances := 1, responsive := true }, true)
  else (w1, false)

/-- `GPSDManager.start_gpsd_instance` (garminReader.py 392-444): launch one
gpsd via Popen; if it stays up but fails the responsiveness check it is
terminated (killed on timeout) and failure is reported, so the net instance
count is unchanged; only a verified instance is left running. -/
def start_gpsd_instance (devicePresent : Bool) (o : StartOutcome)
    (w : DaemonWorld) : DaemonWorld × Bool :=
  if devicePresent then
    match o with
    | StartOutcome.launchFails => (w, false)
    | StartOutcome.unresponsive => (w, false)
    | StartOutcome.healthy => ({ instances := w.instances + 1, responsive := true }, true)
  else (w, false)

/-! ## System watchdog (system_watchdog.py) -/

/-- system_watchdog.py configuration constants (lines 24-29). -/
def GRACE_PERIOD : ℚ := 300

/-- `MAX_FAILURES` (system_watchdog.py line 27). -/
def MAX_FAILURES : Nat := 5

/-- Watchdog state: the `failure_count` field of `SystemWatchdog`. -/
structure WdState where
  failure_count : Nat
deriving DecidableEq

/-- Actions the watchdog can take against the host. -/
inductive WdAction where
  | serviceRestart
  | reboot
deriving DecidableEq

/-- `SystemWatchdog.emergency_restart` (system_watchdog.py 177-209): first
attempt one in-place restart of gps-stream.service; when the service is
then seen running, reset the failure count and cancel the reboot;
otherwise sync and reboot the host. -/
def emergency_restart (restartFixes : Bool) (s : WdState) : WdState × List WdAction :=
  if restartFixes then
    ({ failure_count := 0 }, [WdAction.serviceRestart])
  else (s, [WdAction.serviceRestart, WdAction.reboot])

/-- `SystemWatchdog.check_system_health` (system_watchdog.py 91-145).
`elapsed` is `(now - self.start_time).total_seconds()`; `issues` abstracts
whether the issue list built from the service/heartbeat queries is
non-empty; `restartFixes` is whether the service runs after the emergency
in-place restart. -/
def check_system_health (elapsed : ℚ) (issues restartFixes : Bool)
    (s : WdState) : WdState × List WdAction :=
  if elapsed < GRACE_PERIOD then (s, [])
  else if issues then
    let s1 : WdState := { failure_count := s.failure_count + 1 }
    if s1.failure_count ≥ MAX_FAILURES then emergency_restart restartFixes s1
    else (s1, [])
  else ({ failure_count := 0 }, [])

/-- The watchdog health checks run over a trace of poll cycles; each input
is (elapsed time since start, issues present, restart would fix). -/
def wdRun : List (ℚ × Bool × Bool) → WdState → WdState × List WdAction
  | [], s => (s, [])
  | i :: rest, s =>
    let r := check_system_health i.1 i.2.1 i.2.2 s
    let q := wdRun rest r.1
    (q.1, r.2 ++ q.2)

/-! ## Compass reader (garminReader.py 54-151) -/

/-- The heading fields of `CompassReader`. -/
structure CompassState where
  heading : ℚ
  last_valid_heading : ℚ
deriving DecidableEq

/-- `CompassReader.__init__` (garminReader.py 57-63): both headings 0.0. -/
def initCompass : CompassState := { heading := 0, last_valid_heading := 0 }

/-- What one call of `read_compass` encounters: compass inactive, data not
ready, bus exception, or a successful sample whose `headingDeg` is the
value `math.degrees(math.atan2(y_cal, x_cal))` before wrap-around. -/
inductive CompassEvent where
  | notActive
  | notReady
  | readError
  | success (headingDeg : ℚ)

/-- Does the event respect the range of `degrees(atan2 ..)`, which over the
reals always lies in [-180, 180]?  Boolean so witnesses can evaluate it. -/
def atanDegOk : CompassEvent → Bool
  | CompassEvent.success d => decide (-180 ≤ d ∧ d ≤ 180)
  | _ => true

/-- `CompassReader.read_compass` (garminReader.py 105-151): inactive, not
ready, and exception paths return the cached `last_valid_heading`; a
successful sample adds 360 to a negative degree value and stores the result
in both fields before returning it. -/
def read_compass : CompassEvent → CompassState → ℚ × CompassState
  | CompassEvent.notActive, s => (s.last_valid_heading, s)
  | CompassEvent.notReady, s => (s.last_valid_heading, s)
  | CompassEvent.readError, s => (s.last_valid_heading, s)
  | CompassEvent.success d, _ =>
    let h := if d < 0 then d + 360 else d
    (h, { heading := h, last_valid_heading := h })

/-- `CompassReader.get_heading` (garminReader.py 149-151). -/
def get_heading (s : CompassState) : ℚ := s.heading

/-- The compass broadcast loop reading the compass over a trace of events,
collecting every value `read_compass` returns. -/
def runCompass : List CompassEvent → CompassState → CompassState × List ℚ
  | [], s => (s, [])
  | e :: rest, s =>
    let r := read_compass e s
    let q := runCompass rest r.2
    (q.1, r.1 :: q.2)

/-! ## Supporting lemmas for the checksum -/

lemma xor_lt_256 {a b : Nat} (ha : a < 256) (hb : b < 256) : a ^^^ b < 256 :=
  show Nat.bitwise bne a b < 2 ^ 8 from
    Nat.bitwise_lt (by omega) (by omega)

lemma foldl_xor_lt (s : List Char) :
    ∀ acc : Nat, acc < 256 → (∀ c ∈ s, c.toNat < 128) →
      s.foldl (fun a c => a ^^^ c.toNat) acc < 256 := by
  induction s with
  | nil =>
    intro acc h _
    simpa using h
  | cons c cs ih =>
    intro acc hacc hs
    simp only [List.foldl_cons]
    apply ih
    · exact xor_lt_256 hacc (by
        have := hs c (by simp)
        omega)
    · intro d hd
      exact hs d (by simp [hd])

lemma calculate_nmea_checksum_lt_256 (s : List Char)
    (h : ∀ c ∈ s, c.toNat < 128) : calculate_nmea_checksum s < 256 :=
  foldl_xor_lt s 0 (by omega) h

lemma formatHex02_spec_lt_256 :
    ∀ n, n < 256 → (formatHex02 n).length = 2
      ∧ (∀ c ∈ formatHex02 n, isUpperHexDigit c = true)
      ∧ hexListVal (formatHex02 n) = n := by decide

lemma splitOnNewlines_mem (cs : List Char) (h : Char.ofNat 10 ∈ cs) :
    ∃ l ls r, splitOnNewlines cs = (l :: ls, r) := by
  induction cs with
  | nil => simp at h
  | cons c cs ih =>
    by_cases hc : c = Char.ofNat 10
    · subst hc
      exact ⟨[], (splitOnNewlines cs).1, (splitOnNewlines cs).2, by simp [splitOnNewlines]⟩
    · have hmem : Char.ofNat 10 ∈ cs := by
        rcases List.mem_cons.1 h with h1 | h1
        · exact absurd h1.symm hc
        · exact h1
      obtain ⟨l, ls, r, hs⟩ := ih hmem
      exact ⟨c :: l, ls, r, by simp [splitOnNewlines, hc, hs]⟩

lemma splitOnNewlines_append_of_no_newline (leftover : List Char) :
    ∀ rest : List Char, (∀ c ∈ leftover, c ≠ Char.ofNat 10) → Char.ofNat 10 ∈ rest →
      ∃ l ls r t, splitOnNewlines (leftover ++ rest) = (l :: ls, r) ∧ l = leftover ++ t := by
  induction leftover with
  | nil =>
    intro rest _ hr
    obtain ⟨l, ls, r, hs⟩ := splitOnNewlines_mem rest hr
    exact ⟨l, ls, r, l, by simpa using hs, by simp⟩
  | cons c lf ih =>
    intro rest hl hr
    have hc : c ≠ Char.ofNat 10 := hl c (by simp)
    obtain ⟨l, ls, r, t, hs, hpre⟩ := ih rest (fun d hd => hl d (by simp [hd])) hr
    refine ⟨c :: l, ls, r, t, ?_, by simp [hpre]⟩
    simp [splitOnNewlines, hc, hs]

/-! ## Supporting lemmas for the device monitor -/

lemma monitorStep_cf_le (ro p : Bool) (s : MonState) :
    (monitorStep ro p s).1.consecutive_failures ≤ s.consecutive_failures := by
  cases p <;> simp [monitorStep] <;> split_ifs <;> simp_all

lemma runMonitor_cf_le (inputs : List (Bool × Bool)) :
    ∀ s : MonState,
      (runMonitor inputs s).1.consecutive_failures ≤ s.consecutive_failures := by
  induction inputs with
  | nil => intro s; simp [runMonitor]
  | cons i rest ih =>
    intro s
    simp only [runMonitor]
    exact le_trans (ih _) (monitorStep_cf_le i.1 i.2 s)

/-! ## Supporting lemmas for the compass invariant -/

lemma read_compass_preserves (e : CompassEvent) (s : CompassState)
    (hs : (0 ≤ s.heading ∧ s.heading < 360)
      ∧ 0 ≤ s.last_valid_heading ∧ s.last_valid_heading < 360)
    (he : atanDegOk e = true) :
    (0 ≤ (read_compass e s).1 ∧ (read_compass e s).1 < 360)
    ∧ (0 ≤ (read_compass e s).2.heading ∧ (read_compass e s).2.heading < 360)
    ∧ 0 ≤ (read_compass e s).2.last_valid_heading
    ∧ (read_compass e s).2.last_valid_heading < 360 := by
  cases e with
  | notActive => exact ⟨⟨hs.2.1, hs.2.2⟩, hs.1, hs.2⟩
  | notReady => exact ⟨⟨hs.2.1, hs.2.2⟩, hs.1, hs.2⟩
  | readError => exact ⟨⟨hs.2.1, hs.2.2⟩, hs.1, hs.2⟩
  | success d =>
    have hd : -180 ≤ d ∧ d ≤ 180 := by
      simpa [atanDegOk] using he
    simp only [read_compass]
    split_ifs with hneg
    · refine ⟨⟨by linarith [hd.1], by linarith⟩, ⟨by linarith [hd.1], by linarith⟩,
        by linarith [hd.1], by linarith⟩
    · push_neg at hneg
      refine ⟨⟨hneg, by linarith [hd.2]⟩, ⟨hneg, by linarith [hd.2]⟩,
        hneg, by linarith [hd.2]⟩

lemma runCompass_inv (evs : List CompassEvent) :
    ∀ s : CompassState,
      (∀ e ∈ evs, atanDegOk e = true) →
      ((0 ≤ s.heading ∧ s.heading < 360)
        ∧ 0 ≤ s.last_valid_heading ∧ s.last_valid_heading < 360) →
      ((0 ≤ (runCompass evs s).1.heading ∧ (runCompass evs s).1.heading < 360)
        ∧ 0 ≤ (runCompass evs s).1.last_valid_heading
        ∧ (runCompass evs s).1.last_valid_heading < 360)
      ∧ (∀ r ∈ (runCompass evs s).2, 0 ≤ r ∧ r < 360) := by
  induction evs with
  | nil =>
    intro s _ hs
    simpa [runCompass] using hs
  | cons e rest ih =>
    intro s hok hs
    have he : atanDegOk e = true := hok e (by simp)
    have hstep := read_compass_preserves e s hs he
    have hrec := ih (read_compass e s).2
      (fun x hx => hok x (by simp [hx])) ⟨hstep.2.1, hstep.2.2⟩
    simp only [runCompass]
    refine ⟨hrec.1, ?_⟩
    intro r hr
    rcases List.mem_cons.1 hr with h1 | h1
    · subst h1; exact hstep.1
    · exact hrec.2 r h1

/-! ## Claim theorems -/

/-- Claim C1 (amended to lines whose characters are all ASCII): for every
stripped received line that begins with a sentence marker, contains no
completion marker, and consists of code points below 128, the payload passed
to the broadcaster is that line followed by a completion marker and exactly
two uppercase hexadecimal digits whose value is the XOR of the code points
of all characters of the line after the leading marker. -/
theorem C1_checksum_completion (body : List Char)
    (hstrip : pyStrip ('$' :: body) = '$' :: body)
    (hstar : '*' ∉ '$' :: body)
    (hascii : ∀ c ∈ body, c.toNat < 128) :
    gpsdProcessLine ('$' :: body) =
      some (('$' :: body) ++ '*' :: formatHex02 (calculate_nmea_checksum body))
    ∧ calculate_nmea_checksum body = body.foldl (fun a c => a ^^^ c.toNat) 0
    ∧ (formatHex02 (calculate_nmea_checksum body)).length = 2
    ∧ (∀ c ∈ formatHex02 (calculate_nmea_checksum body), isUpperHexDigit c = true)
    ∧ hexListVal (formatHex02 (calculate_nmea_checksum body)) =
        calculate_nmea_checksum body := by
  have hlt : calculate_nmea_checksum body < 256 :=
    calculate_nmea_checksum_lt_256 body hascii
  have hspec := formatHex02_spec_lt_256 _ hlt
  refine ⟨?_, rfl, hspec.1, hspec.2.1, hspec.2.2⟩
  unfold gpsdProcessLine
  rw [hstrip]
  simp [hstar]

/-- Claim C1, witness: the concrete HCHDG body from the specification gets
the fixed checksum byte 0x5D. -/
theorem C1_checksum_completion_witness :
    gpsdProcessLine ('$' :: ("HCHDG,45.0,,,,0.0".toList)) =
      some (('$' :: ("HCHDG,45.0,,,,0.0".toList)) ++ '*' ::
        formatHex02 (calculate_nmea_checksum ("HCHDG,45.0,,,,0.0".toList)))
    ∧ formatHex02 (calculate_nmea_checksum ("HCHDG,45.0,,,,0.0".toList)) = ['5', 'D'] :=
  ⟨(C1_checksum_completion ("HCHDG,45.0,,,,0.0".toList)
      (by decide) (by decide) (by decide)).1, by decide⟩

/-- Claim C1, counterexample to the unrestricted statement: a received line
containing the character U+0100 (code point 256) and no completion marker is
broadcast with THREE hex digits after the marker, because the XOR of the
code points is 256 and the 02X format only pads, never truncates. -/
theorem C1_counterexample :
    gpsdProcessLine ['$', Char.ofNat 256] =
      some (['$', Char.ofNat 256] ++ '*' ::
        formatHex02 (calculate_nmea_checksum [Char.ofNat 256]))
    ∧ calculate_nmea_checksum [Char.ofNat 256] = 256
    ∧ formatHex02 (calculate_nmea_checksum [Char.ofNat 256]) = ['1', '0', '0']
    ∧ (formatHex02 (calculate_nmea_checksum [Char.ofNat 256])).length ≠ 2 := by
  refine ⟨by decide, by decide, by decide, by decide⟩

/-- Claim C2: `SystemHealth.is_healthy` returns false exactly when the
compass (heading) age exceeds 30 seconds or the heartbeat age exceeds 60
seconds; ages exactly equal to their thresholds count as healthy, and the
heading threshold 30 is strictly below the heartbeat threshold 60. -/
theorem C2_is_healthy_policy (now lc lh : ℚ) :
    (is_healthy now lc lh = false ↔ (30 < now - lc ∨ 60 < now - lh))
    ∧ (now - lc = 30 → now - lh = 60 → is_healthy now lc lh = true)
    ∧ ((30 : ℚ) < 60) := by
  refine ⟨?_, ?_, by norm_num⟩
  · unfold is_healthy
    split_ifs with h1 h2
    · simp only [gt_iff_lt] at h1
      simp [h1]
    · simp only [gt_iff_lt] at h2
      simp [h2]
    · simp only [gt_iff_lt, not_lt] at h1 h2
      constructor
      · intro h
        exact absurd h (by simp)
      · intro h
        rcases h with h | h
        · exact absurd h (not_lt.2 h1)
        · exact absurd h (not_lt.2 h2)
  · intro e1 e2
    unfold is_healthy
    rw [e1, e2]
    norm_num

/-- Claim C2, witness: at both boundaries simultaneously the tracker still
reports healthy. -/
theorem C2_is_healthy_policy_witness :
    is_healthy 30 0 (-30) = true ∧ is_healthy 31 0 (-30) = false :=
  ⟨(C2_is_healthy_policy 30 0 (-30)).2.1 (by norm_num) (by norm_num),
   (C2_is_healthy_policy 31 0 (-30)).1.2 (by norm_num)⟩

/-- Claim C3: along every poll trace of the enhanced device monitor loop,
each iteration issues at most one daemon restart, the failure counter never
exceeds the ceiling 3 (so an escalation would already have fired at 3), and
any cycle that polls the device as present with the prior confirmed state
also present resets the counter to zero. -/
theorem C3_monitor_counter_invariants (inputs : List (Bool × Bool)) :
    (runMonitor inputs initMonState).1.consecutive_failures ≤ 3
    ∧ (∀ ro p : Bool, ∀ s : MonState,
        (monitorStep ro p s).2.count MonAction.enhancedRestart ≤ 1)
    ∧ (∀ ro : Bool, ∀ s : MonState, s.device_present = true →
        (monitorStep ro true s).1.consecutive_failures = 0) := by
  refine ⟨?_, ?_, ?_⟩
  · exact le_trans (runMonitor_cf_le inputs initMonState) (by norm_num [initMonState])
  · intro ro p s
    cases p <;> cases ro <;> simp [monitorStep] <;> split_ifs <;> simp
  · intro ro s _
    cases ro <;> simp [monitorStep] <;> split_ifs <;> simp_all

/-- Claim C3, witness: a concrete trace and a concrete stable-present
cycle. -/
theorem C3_monitor_counter_invariants_witness :
    (runMonitor [(true, true), (true, false)] initMonState).1.consecutive_failures ≤ 3
    ∧ (monitorStep true true
        { consecutive_failures := 2, device_present := true,
          gpsd_connected := true }).1.consecutive_failures = 0 :=
  ⟨(C3_monitor_counter_invariants [(true, true), (true, false)]).1,
   (C3_monitor_counter_invariants []).2.2 true
     { consecutive_failures := 2, device_present := true, gpsd_connected := true } rfl⟩

/-- Claim C4, counterexample: the relay buffer is NOT discarded across a
reconnect.  A first connection that ends leaving the partial bytes `$GP` in
the buffer emits nothing; after the reconnect a second connection delivering
`GGA` and a newline causes the broadcast of a line assembled from the bytes
of BOTH connections, while the second connection alone (buffer discarded)
would broadcast nothing. -/
theorem C4_counterexample :
    (runEpoch [] [['$', 'G', 'P']]).2 = []
    ∧ (runEpoch [] [['$', 'G', 'P']]).1 = ['$', 'G', 'P']
    ∧ (runEpochs [] [[['$', 'G', 'P']], [['G', 'G', 'A', Char.ofNat 10]]]).2 =
        [['$', 'G', 'P', 'G', 'G', 'A', '*', '5', '6']]
    ∧ (runEpochs [] [[['G', 'G', 'A', Char.ofNat 10]]]).2 = [] := by
  refine ⟨by decide, by decide, by decide, by decide⟩

/-- Claim C4 (amended): the line buffer of `gpsd_loop` persists across
connection epochs — the buffer left when one connection ends is the starting
buffer of the next epoch — and any partial line without a newline left by
the old connection becomes a prefix of the first complete line assembled on
the new connection, so a broadcast line can combine bytes received on two
different connections. -/
theorem C4_buffer_carried (buf : List Char) (e : List (List Char))
    (es : List (List (List Char))) :
    (runEpochs buf (e :: es) =
      ((runEpochs (runEpoch buf e).1 es).1,
       (runEpoch buf e).2 ++ (runEpochs (runEpoch buf e).1 es).2))
    ∧ (∀ leftover rest : List Char,
        (∀ c ∈ leftover, c ≠ Char.ofNat 10) → Char.ofNat 10 ∈ rest →
        ∃ l ls r t, splitOnNewlines (leftover ++ rest) = (l :: ls, r)
          ∧ l = leftover ++ t) := by
  refine ⟨rfl, ?_⟩
  intro leftover rest hl hr
  exact splitOnNewlines_append_of_no_newline leftover rest hl hr

/-- Claim C4, witness for the amended statement at concrete inputs. -/
theorem C4_buffer_carried_witness :
    ∃ l ls r t,
      splitOnNewlines (['$', 'X'] ++ ['Y', Char.ofNat 10]) = (l :: ls, r)
      ∧ l = ['$', 'X'] ++ t :=
  (C4_buffer_carried [] [['$', 'X']] [[['Y']]]).2 ['$', 'X']
    ['Y', Char.ofNat 10] (by decide) (by decide)

/-- Claim C5 (code bug): a poll cycle that sees the device present after a
confirmed prior absence triggers NO restart at all.  `check_device()` has
already overwritten `gpsd_manager.device_present` with the new poll before
the reconnect condition re-reads it, so the reconnect branch can never run;
the step only resets the counter and emits no action, whatever the restart
oracle would have answered. -/
theorem C5_reconnect_restart_never_fires :
    monitorStep true true
      { consecutive_failures := 0, device_present := false, gpsd_connected := false } =
      ({ consecutive_failures := 0, device_present := true, gpsd_connected := false }, [])
    ∧ monitorStep false true
      { consecutive_failures := 2, device_present := false, gpsd_connected := true } =
      ({ consecutive_failures := 0, device_present := true, gpsd_connected := true }, []) := by
  refine ⟨by decide, by decide⟩

/-- Claim C6 (code bug): `enhanced_restart_gpsd`, the restart operation the
monitor and relay loops actually invoke, reports failure after an
unresponsive launch but leaves the just-started instance running: starting
from a world with one (responsive) daemon, the unresponsive-launch run ends
with one unkilled, unresponsive instance and result false.  The unused
helper `start_gpsd_instance` — whose docstring claims it is called by
`enhanced_restart_gpsd` — does kill the unresponsive instance.  Success is
still only ever reported after a successful handshake. -/
theorem C6_unresponsive_instance_left_running :
    enhanced_restart_gpsd true StartOutcome.unresponsive
      { instances := 1, responsive := true } =
      ({ instances := 1, responsive := false }, false)
    ∧ start_gpsd_instance true StartOutcome.unresponsive
      { instances := 0, responsive := false } =
      ({ instances := 0, responsive := false }, false)
    ∧ enhanced_restart_gpsd true StartOutcome.healthy
      { instances := 0, responsive := false } =
      ({ instances := 1, responsive := true }, true)
    ∧ (enhanced_restart_gpsd true StartOutcome.unresponsive
      { instances := 1, responsive := true }).2 = false := by
  refine ⟨by decide, by decide, by decide, by decide⟩

/-- Claim C7: the restart operation is idempotent — from any starting
world and for any launch outcomes, one call and two immediately successive
calls each leave at most one daemon instance, and a success report means
exactly one responsive (healthy) instance is running. -/
theorem C7_restart_idempotent (d₁ d₂ : Bool) (o₁ o₂ : StartOutcome)
    (w : DaemonWorld) :
    (enhanced_restart_gpsd d₁ o₁ w).1.instances ≤ 1
    ∧ (enhanced_restart_gpsd d₂ o₂ (enhanced_restart_gpsd d₁ o₁ w).1).1.instances ≤ 1
    ∧ ((enhanced_restart_gpsd d₂ o₂ (enhanced_restart_gpsd d₁ o₁ w).1).2 = true →
        (enhanced_restart_gpsd d₂ o₂ (enhanced_restart_gpsd d₁ o₁ w).1).1.instances = 1
        ∧ (enhanced_restart_gpsd d₂ o₂
             (enhanced_restart_gpsd d₁ o₁ w).1).1.responsive = true) := by
  cases d₁ <;> cases d₂ <;> cases o₁ <;> cases o₂ <;>
    simp [enhanced_restart_gpsd, killAllGpsd]

/-- Claim C7, witness: two successive calls starting from a world with
three stale instances end with exactly one healthy instance. -/
theorem C7_restart_idempotent_witness :
    (enhanced_restart_gpsd true StartOutcome.healthy
      (enhanced_restart_gpsd true StartOutcome.unresponsive
        { instances := 3, responsive := false }).1).1.instances = 1 :=
  ((C7_restart_idempotent true true StartOutcome.unresponsive StartOutcome.healthy
      { instances := 3, responsive := false }).2.2 (by decide)).1

/-- Claim C8: during the 300 s startup grace period the watchdog takes no
action and changes no state, whatever the silence looks like; after grace,
fewer than 5 consecutive failing checks take no action; the 5th consecutive
failure triggers exactly one service restart, which on success resets the
counter and cancels the reboot and on failure is followed by the reboot;
and every check emits one of the action sequences nothing, restart-only,
or restart-then-reboot, so a reboot is always preceded by the one restart
attempt. -/
theorem C8_watchdog_escalation (elapsed : ℚ) (issues rf : Bool)
    (s : WdState) (k : Nat) :
    (elapsed < GRACE_PERIOD → check_system_health elapsed issues rf s = (s, []))
    ∧ (k < MAX_FAILURES →
        wdRun (List.replicate k (GRACE_PERIOD, true, rf)) { failure_count := 0 } =
          ({ failure_count := k }, []))
    ∧ wdRun (List.replicate MAX_FAILURES (GRACE_PERIOD, true, true))
        { failure_count := 0 } =
        ({ failure_count := 0 }, [WdAction.serviceRestart])
    ∧ wdRun (List.replicate MAX_FAILURES (GRACE_PERIOD, true, false))
        { failure_count := 0 } =
        ({ failure_count := 5 }, [WdAction.serviceRestart, WdAction.reboot])
    ∧ (check_system_health elapsed issues rf s).2 ∈
        ([[], [WdAction.serviceRestart], [WdAction.serviceRestart, WdAction.reboot]] :
          List (List WdAction)) := by
  refine ⟨?_, ?_, by decide, by decide, ?_⟩
  · intro h
    simp [check_system_health, h]
  · intro hk
    simp only [MAX_FAILURES] at hk
    interval_cases k <;> cases rf <;> decide
  · unfold check_system_health emergency_restart
    by_cases h1 : elapsed < GRACE_PERIOD <;>
      by_cases h2 : issues = true <;>
        by_cases h3 : MAX_FAILURES ≤ s.failure_count + 1 <;>
          by_cases h4 : rf = true <;>
            simp [h1, h2, h3, h4]

/-- Claim C8, witness: a concrete in-grace check and a concrete short
failure run. -/
theorem C8_watchdog_escalation_witness :
    check_system_health 0 true true { failure_count := 4 } = ({ failure_count := 4 }, [])
    ∧ wdRun (List.replicate 2 (GRACE_PERIOD, true, true)) { failure_count := 0 } =
        ({ failure_count := 2 }, []) :=
  ⟨(C8_watchdog_escalation 0 true true { failure_count := 4 } 2).1
     (by norm_num [GRACE_PERIOD]),
   (C8_watchdog_escalation 0 true true { failure_count := 4 } 2).2.1
     (by norm_num [MAX_FAILURES])⟩

/-- Claim C9: starting from the zero-initialized state, as long as every
successful raw sample lies in the range of `degrees(atan2 ..)` — which over
the reals is [-180, 180] — the stored heading and the cached last-valid
heading stay in [0, 360), and every value `read_compass` or `get_heading`
ever returns lies in [0, 360) (failed or inactive reads return the cached
value). -/
theorem C9_heading_range (evs : List CompassEvent)
    (h : ∀ e ∈ evs, atanDegOk e = true) :
    (0 ≤ (runCompass evs initCompass).1.heading
      ∧ (runCompass evs initCompass).1.heading < 360)
    ∧ (0 ≤ (runCompass evs initCompass).1.last_valid_heading
      ∧ (runCompass evs initCompass).1.last_valid_heading < 360)
    ∧ (∀ r ∈ (runCompass evs initCompass).2, 0 ≤ r ∧ r < 360)
    ∧ (0 ≤ get_heading (runCompass evs initCompass).1
      ∧ get_heading (runCompass evs initCompass).1 < 360) := by
  have hinv := runCompass_inv evs initCompass h
    (by constructor <;> constructor <;> norm_num [initCompass])
  exact ⟨hinv.1.1, hinv.1.2, hinv.2, hinv.1.1⟩

/-- Claim C9, witness: a concrete trace with a negative-angle sample, a bus
error and a positive sample. -/
theorem C9_heading_range_witness :
    (0 ≤ (runCompass [CompassEvent.success 90, CompassEvent.readError,
        CompassEvent.success (-90)] initCompass).1.heading
      ∧ (runCompass [CompassEvent.success 90, CompassEvent.readError,
        CompassEvent.success (-90)] initCompass).1.heading < 360)
    ∧ (runCompass [CompassEvent.success 90, CompassEvent.readError,
        CompassEvent.success (-90)] initCompass).1.heading = 270 :=
  ⟨(C9_heading_range [CompassEvent.success 90, CompassEvent.readError,
      CompassEvent.success (-90)] (by decide)).1, by norm_num [runCompass, read_compass, initCompass]⟩

/-- Claim C10: for ASCII input (all code points below 128) the checksum is
a value in [0, 255] and its 02X rendering is exactly two digits; an input
with a code point of 256 or above can drive the checksum above 255, making
the rendered suffix longer than two digits. -/
theorem C10_checksum_byte_range :
    (∀ s : List Char, (∀ c ∈ s, c.toNat < 128) →
      calculate_nmea_checksum s ≤ 255
      ∧ (formatHex02 (calculate_nmea_checksum s)).length = 2)
    ∧ (∃ s : List Char, (∃ c ∈ s, 256 ≤ c.toNat)
      ∧ 255 < calculate_nmea_checksum s
      ∧ 2 < (formatHex02 (calculate_nmea_checksum s)).length) := by
  constructor
  · intro s hs
    have hlt := calculate_nmea_checksum_lt_256 s hs
    exact ⟨by omega, (formatHex02_spec_lt_256 _ hlt).1⟩
  · exact ⟨[Char.ofNat 256], ⟨Char.ofNat 256, by simp, by decide⟩,
      by decide, by decide⟩

/-- Claim C10, witness: a concrete ASCII sentence body. -/
theorem C10_checksum_byte_range_witness :
    calculate_nmea_checksum ("GPGGA".toList) ≤ 255
    ∧ (formatHex02 (calculate_nmea_checksum ("GPGGA".toList))).length = 2 :=
  C10_checksum_byte_range.1 ("GPGGA".toList) (by decide)
